import Mathlib

/-!
Shallow embedding of the telemetry core of `otel-example-go` and proofs of
the spec claims about it.  Each Go function that a claim depends on is
translated into an executable Lean definition; theorems below relate those
definitions to the spec's statements.
-/

set_option maxRecDepth 4096

namespace OtelExample

/-! ### `internal/config`: environment handling (`getEnv`, `GetTelemetryConfig`) -/

namespace Config

/-- Environment: `os.Getenv` returns `""` both for unset and for empty
variables, so we model the environment as a total map to strings. -/
def Env := String → String

/-- Embeds `getEnv` from `internal/config/config.go`: return the variable's
value when non-empty, otherwise the default. -/
def getEnv (env : Env) (key defaultValue : String) : String :=
  if env key ≠ "" then env key else defaultValue

/-- Embeds the `TelemetryConfig` struct of `internal/config/telemetry.go`. -/
structure TelemetryConfig where
  serviceName : String
  serviceVersion : String
  environment : String
  otlpGRPCEndpoint : String
  enableMetrics : Bool
  enableTracing : Bool
  enableLogging : Bool
  enableRuntimeMetrics : Bool
deriving Repr, DecidableEq

/-- Embeds `GetTelemetryConfig` from `internal/config/telemetry.go`. -/
def GetTelemetryConfig (env : Env) : TelemetryConfig :=
  { serviceName := getEnv env "OTEL_SERVICE_NAME" "otel-example-api"
    serviceVersion := getEnv env "OTEL_SERVICE_VERSION" "1.0.0"
    environment := getEnv env "OTEL_ENVIRONMENT" (getEnv env "APP_ENV" "development")
    otlpGRPCEndpoint := getEnv env "OTEL_EXPORTER_OTLP_ENDPOINT" "localhost:4317"
    enableMetrics := getEnv env "OTEL_ENABLE_METRICS" "true" == "true"
    enableTracing := getEnv env "OTEL_ENABLE_TRACING" "true" == "true"
    enableLogging := getEnv env "OTEL_ENABLE_LOGGING" "true" == "true"
    enableRuntimeMetrics := getEnv env "OTEL_ENABLE_RUNTIME_METRICS" "true" == "true" }

end Config

/-! ### `internal/middleware/telemetry.go`: `getStatusClass` -/

namespace Middleware

/-- Embeds `getStatusClass`: the switch over status-code ranges. -/
def getStatusClass (statusCode : Int) : String :=
  if 200 ≤ statusCode ∧ statusCode < 300 then "2xx"
  else if 300 ≤ statusCode ∧ statusCode < 400 then "3xx"
  else if 400 ≤ statusCode ∧ statusCode < 500 then "4xx"
  else if 500 ≤ statusCode then "5xx"
  else "1xx"

/-- The part of a Gin request read by `MetricsMiddleware` before the handler
runs: `c.Request.Method`, `c.FullPath()` and `c.Request.ContentLength`. -/
structure Request where
  method : String
  route : String
  contentLength : Int
deriving Repr, DecidableEq

/-- One recording on one of the five HTTP metric instruments, with the
attributes the source attaches to it.  Numeric observation values that are
wall-clock readings (durations) are not modelled, only the fact and
attributes of the recording. -/
inductive MetricEvent where
  | activeAdd (delta : Int) (method route : String)
  | requestSizeRecord (size : Int) (method route : String)
  | counterAdd (method route statusCode statusClass : String)
  | durationRecord (method route statusCode statusClass : String)
  | responseSizeRecord (size : Int) (method route statusCode statusClass : String)
deriving Repr, DecidableEq

/-- An OpenTelemetry span status as set by the middleware
(`codes.Ok` / `codes.Error`, with the description string). -/
inductive SpanStatus where
  | ok (description : String)
  | error (description : String)
deriving Repr, DecidableEq

/-- What the middleware reads back from the Gin context after `c.Next()`:
`c.Writer.Status()`, `c.Errors`, the `Content-Length` response header
(`none` = unset, `some none` = set but unparsable, `some (some k)` = parses
to `k`), `c.Writer.Size()`, and whether the root span is recording. -/
structure HandlerResult where
  status : Int
  errors : List String
  sizeHeader : Option (Option Int)
  writerSize : Int
  spanRecording : Bool
deriving Repr, DecidableEq

/-- The handler either completes (updating the Gin context) or panics. -/
inductive HandlerOutcome where
  | completes (res : HandlerResult)
  | panics (msg : String)
deriving Repr, DecidableEq

/-- The five instrument handles of `TelemetryMiddleware`; `true` means the
handle is non-nil (instrument creation succeeded), `false` models a nil
interface value. -/
structure TelemetryMiddleware where
  requestCounter : Bool
  requestDuration : Bool
  requestSize : Bool
  responseSize : Bool
  activeRequests : Bool
deriving Repr, DecidableEq

/-- `NewTelemetryMiddleware` with all five instrument creations succeeding. -/
def NewTelemetryMiddleware : TelemetryMiddleware :=
  ⟨true, true, true, true, true⟩

/-- The Go runtime panic message for a method call on a nil interface. -/
def nilPanicMsg : String :=
  "runtime error: invalid memory address or nil pointer dereference"

/-- Calling `Add`/`Record` on an instrument handle: emits the event when the
handle is non-nil, panics when it is nil (none of the middleware call sites
nil-check). -/
def instrumentCall (present : Bool) (ev : MetricEvent) : Except String (List MetricEvent) :=
  if present then .ok [ev] else .error nilPanicMsg

/-- Overall outcome of one request through the middleware. -/
inductive Outcome where
  | completes (status : Int)
  | panics (msg : String)
deriving Repr, DecidableEq

/-- Embeds the response-size computation: prefer a parseable `Content-Length`
header (unparsable leaves the initial 0), else fall back to
`c.Writer.Size()`. -/
def responseSizeOf (res : HandlerResult) : Int :=
  match res.sizeHeader with
  | some (some size) => size
  | some none => 0
  | none => res.writerSize

/-- Rendering of `c.Errors.String()`; the exact Gin formatting is library
detail, modelled as the errors joined by newlines. -/
def ginErrorsString (errs : List String) : String :=
  String.intercalate "\n" errs

/-- Embeds the span-status block at the end of `MetricsMiddleware`
(executed only when the span is recording): errors present take priority,
then status codes ≥ 400, else `Ok`. -/
def spanStatusFor (res : HandlerResult) : Option SpanStatus :=
  if res.spanRecording then
    if res.errors.length > 0 then some (.error (ginErrorsString res.errors))
    else if 400 ≤ res.status then some (.error ("HTTP " ++ toString res.status))
    else some (.ok "")
  else none

/-- The body of `MetricsMiddleware` between the active-requests increment and
the deferred decrement: request-size recording, `c.Next()`, and the
post-handler metric recordings and span-status update.  Returns the metric
events it emitted, the span status it set (when the handler completed and
the span is recording) and how the body exited. -/
def metricsBody (tm : TelemetryMiddleware) (req : Request) (handler : HandlerOutcome) :
    List MetricEvent × Option SpanStatus × Outcome :=
  let m := req.method
  let r := req.route
  let step1 : Except String (List MetricEvent) :=
    if req.contentLength > 0 then
      instrumentCall tm.requestSize (.requestSizeRecord req.contentLength m r)
    else .ok []
  match step1 with
  | .error e => ([], none, .panics e)
  | .ok evs1 =>
    match handler with
    | .panics msg => (evs1, none, .panics msg)
    | .completes res =>
      let responseSize := responseSizeOf res
      let sc := toString res.status
      let cls := getStatusClass res.status
      match instrumentCall tm.requestCounter (.counterAdd m r sc cls) with
      | .error e => (evs1, none, .panics e)
      | .ok evs2 =>
        match instrumentCall tm.requestDuration (.durationRecord m r sc cls) with
        | .error e => (evs1 ++ evs2, none, .panics e)
        | .ok evs3 =>
          let step4 : Except String (List MetricEvent) :=
            if responseSize > 0 then
              instrumentCall tm.responseSize (.responseSizeRecord responseSize m r sc cls)
            else .ok []
          match step4 with
          | .error e => (evs1 ++ evs2 ++ evs3, none, .panics e)
          | .ok evs4 =>
            (evs1 ++ evs2 ++ evs3 ++ evs4, spanStatusFor res, .completes res.status)

/-- Embeds `MetricsMiddleware`: increment the active-requests counter with
the `method`/`route` attributes, defer the matching decrement (so it runs on
every exit path reached after the increment, handler panics included), then
run the body.  A nil `activeRequests` handle panics before the defer is
registered, so in that case no event is emitted at all. -/
def MetricsMiddleware (tm : TelemetryMiddleware) (req : Request) (handler : HandlerOutcome) :
    List MetricEvent × Option SpanStatus × Outcome :=
  let m := req.method
  let r := req.route
  match instrumentCall tm.activeRequests (.activeAdd 1 m r) with
  | .error e => ([], none, .panics e)
  | .ok inc =>
    let bodyResult := metricsBody tm req handler
    (inc ++ bodyResult.1 ++ [.activeAdd (-1) m r], bodyResult.2.1, bodyResult.2.2)

end Middleware

/-! ### `internal/database/connection.go`: query-metrics recording -/

namespace Database

/-- The six instrument handles of the `DB` struct; `true` = non-nil. -/
structure DBMetricsHandles where
  queryDuration : Bool
  queryCount : Bool
  queryErrors : Bool
  connectionCount : Bool
  connectionErrors : Bool
  healthCheckDuration : Bool
deriving Repr, DecidableEq

/-- One recording on a database metric instrument with its attributes
(`db.operation`, `db.table`, and `error.type` on the errors counter). -/
inductive DBMetricEvent where
  | queryDurationRecord (operation table : String)
  | queryCountAdd (operation table : String)
  | queryErrorsAdd (operation table errorType : String)
deriving Repr, DecidableEq

/-- Calling `Add`/`Record` on a database instrument handle: emits the event
when non-nil, panics when nil. -/
def dbInstrumentCall (present : Bool) (ev : DBMetricEvent) : Except String (List DBMetricEvent) :=
  if present then .ok [ev] else .error Middleware.nilPanicMsg

/-- Embeds `RecordQueryMetrics`: duration observation, count increment and
(on error) error-counter increment, each guarded by a nil check on its
instrument handle.  `hasErr` models `err != nil`; the `ctx` and numeric
`duration` arguments carry no information the events model. -/
def RecordQueryMetrics (db : DBMetricsHandles) (operation table : String) (hasErr : Bool) :
    Except String (List DBMetricEvent) := do
  let e1 ←
    if db.queryDuration then
      dbInstrumentCall db.queryDuration (.queryDurationRecord operation table)
    else pure []
  let e2 ←
    if db.queryCount then
      dbInstrumentCall db.queryCount (.queryCountAdd operation table)
    else pure []
  let e3 ←
    if hasErr && db.queryErrors then
      dbInstrumentCall db.queryErrors (.queryErrorsAdd operation table "query_failed")
    else pure []
  pure (e1 ++ e2 ++ e3)

/-- The declared parameter count of `RecordQueryMetrics`
(`ctx, operation, table, duration, err`). -/
def recordQueryMetricsParamCount : Nat := 5

/-- The `UserRepository` call sites of `RecordQueryMetrics` in
`repository/user_repository.go`, with the number of arguments each passes,
read off the source: `GetAll`, `GetByID` and `Create` pass all five;
`Update` passes `(ctx, query, err)`, `Delete` passes `(ctx, query, start,
err)`, `Count` and `GetByEmail` pass `(ctx, query, err)`. -/
def userRepositoryCallSiteArgCounts : List (String × Nat) :=
  [("GetAll", 5), ("GetByID", 5), ("Create", 5),
   ("Update", 3), ("Delete", 4), ("Count", 3), ("GetByEmail", 3)]

end Database

/-! ### `internal/config/telemetry.go`: provider construction and shutdown -/

namespace Config

/-- The result of one provider's `initTracing`/`initMetrics`/`initLogging`
call: the provider handle plus its shutdown callback, or the initialization
error.  A shutdown callback is modelled as an identifying tag together with
the error it will return when later invoked (`none` = clean shutdown). -/
abbrev InitResult := Except String (String × (Nat × Option String))

/-- Embeds the `TelemetryProvider` struct: the three (nilable) provider
references and the registered shutdown callbacks, in registration order. -/
structure TelemetryProviderModel where
  tracerProvider : Option String
  meterProvider : Option String
  loggerProvider : Option String
  shutdownFuncs : List (Nat × Option String)
deriving Repr, DecidableEq

/-- Embeds `InitTelemetry`'s provider construction: each enabled toggle runs
its init, stores the provider reference and appends that provider's shutdown
callback; a failed init aborts with a wrapped error; a disabled toggle
contributes neither a provider nor a callback. -/
def InitTelemetry (cfg : TelemetryConfig)
    (tracingInit metricsInit loggingInit : InitResult) :
    Except String TelemetryProviderModel := do
  let mut tracerProvider : Option String := none
  let mut meterProvider : Option String := none
  let mut loggerProvider : Option String := none
  let mut shutdownFuncs : List (Nat × Option String) := []
  if cfg.enableTracing then
    match tracingInit with
    | .error e => throw ("failed to initialize tracing: " ++ e)
    | .ok (tp, sd) =>
      tracerProvider := some tp
      shutdownFuncs := shutdownFuncs ++ [sd]
  if cfg.enableMetrics then
    match metricsInit with
    | .error e => throw ("failed to initialize metrics: " ++ e)
    | .ok (mp, sd) =>
      meterProvider := some mp
      shutdownFuncs := shutdownFuncs ++ [sd]
  if cfg.enableLogging then
    match loggingInit with
    | .error e => throw ("failed to initialize logging: " ++ e)
    | .ok (lp, sd) =>
      loggerProvider := some lp
      shutdownFuncs := shutdownFuncs ++ [sd]
  return ⟨tracerProvider, meterProvider, loggerProvider, shutdownFuncs⟩

/-- Embeds the loop of the combined shutdown closure: invoke every registered
callback in order (never stopping at a failure), collecting the errors.
Returns the invocation order and the collected error list. -/
def runShutdownFuncs (fns : List (Nat × Option String)) : List Nat × List String :=
  fns.foldl
    (fun acc fn =>
      (acc.1 ++ [fn.1],
       match fn.2 with
       | some e => acc.2 ++ [e]
       | none => acc.2))
    ([], [])

/-- Embeds the combined shutdown closure's result: the aggregate error is
`nil` exactly when no collected error exists, else one combined error. -/
def Shutdown (fns : List (Nat × Option String)) : List Nat × Option String :=
  let run := runShutdownFuncs fns
  (run.1,
   if run.2.length > 0 then
     some ("telemetry shutdown errors: " ++ toString run.2)
   else none)

end Config

/-! ### `internal/handlers/metrics_handler.go`: `GetMetrics` -/

namespace Handlers

/-- The JSON document and HTTP status produced by `GetMetrics`. -/
structure MetricsResponse where
  dbHealthy : Bool
  dbError : String
  dbStats : String
  appStatus : String
  message : String
  statusCode : Int
deriving Repr, DecidableEq

/-- Embeds `GetMetrics`: `healthErr` is the result of `h.db.Health()`
(`none` = healthy, `some e` = error with message `e`); `dbStats` is the
opaque `GetDetailedStats()` payload passed through unchanged. -/
def GetMetrics (healthErr : Option String) (dbStats : String) : MetricsResponse :=
  { dbHealthy := healthErr.isNone
    dbError :=
      match healthErr with
      | some e => e
      | none => ""
    dbStats := dbStats
    appStatus := "running"
    message := "Application and database metrics"
    statusCode := if healthErr.isSome then 503 else 200 }

/-- The error `database/sql`'s `Ping` returns on a closed connection, which
`DB.Health` passes through. -/
def databaseClosedErr : String := "sql: database is closed"

end Handlers

/-! ### `internal/logging/logger.go`: trace-aware log records -/

namespace Logging

/-- A span context as tested by `SpanContext().IsValid()`: valid iff both the
trace identifier and the span identifier are nonzero.  A context with no
active span yields the zero (invalid) span context. -/
structure SpanContext where
  traceID : Nat
  spanID : Nat
deriving Repr, DecidableEq

/-- `IsValid`: both identifiers nonzero. -/
def SpanContext.isValid (sc : SpanContext) : Bool :=
  decide (sc.traceID ≠ 0) && decide (sc.spanID ≠ 0)

/-- Ordered key-value fields of a structured log record. -/
abbrev LogFields := List (String × String)

/-- Embeds `Logger.WithTraceContext`: start from an empty field set and add
`trace_id`/`span_id` exactly when the context's span context is valid. -/
def WithTraceContext (ctx : SpanContext) : LogFields :=
  if ctx.isValid then
    [("trace_id", toString ctx.traceID), ("span_id", toString ctx.spanID)]
  else []

/-- Fields of a record produced through a trace-aware entry point
(`LogInfo`/`LogWarn`/`LogError`/`LogDebug`): the trace fields resolved from
the context, followed by the caller's own fields. -/
def logRecordFields (ctx : SpanContext) (fields : LogFields) : LogFields :=
  WithTraceContext ctx ++ fields

/-- The four configurable logrus levels used by the repository. -/
inductive LogLevel where
  | debug
  | info
  | warn
  | error
deriving Repr, DecidableEq

/-- logrus severity ranks (smaller = more severe):
Error=2, Warn=3, Info=4, Debug=5. -/
def levelRank : LogLevel → Nat
  | .error => 2
  | .warn => 3
  | .info => 4
  | .debug => 5

/-- logrus emission test: an entry is written iff its level is at least as
severe as the logger's configured minimum level. -/
def levelEmits (configured entry : LogLevel) : Bool :=
  decide (levelRank entry ≤ levelRank configured)

/-- Embeds the status→severity selection in `Logger.Middleware`'s formatter:
the level and message depend only on the response status code. -/
def middlewareLogEntry (statusCode : Int) : LogLevel × String :=
  if statusCode ≥ 500 then (.error, "HTTP request completed with server error")
  else if statusCode ≥ 400 then (.warn, "HTTP request completed with client error")
  else (.info, "HTTP request completed successfully")

/-- The completion log line as actually emitted under a configured minimum
level: `none` when the configured level filters it out. -/
def middlewareEmittedRecord (configured : LogLevel) (statusCode : Int) :
    Option (LogLevel × String) :=
  let e := middlewareLogEntry statusCode
  if levelEmits configured e.1 then some e else none

end Logging

/-! ### Concrete sample inputs used by witnesses and counterexamples -/

/-- A concrete environment that sets `OTEL_ENABLE_METRICS=TRUE` and leaves
everything else unset. -/
def envMetricsTRUE : Config.Env :=
  fun k => if k = "OTEL_ENABLE_METRICS" then "TRUE" else ""

/-- A concrete request: `GET /users` with no body. -/
def req0 : Middleware.Request := ⟨"GET", "/users", 0⟩

/-- A concrete handler result: 200, no errors, no `Content-Length` header,
5 bytes written, span not recording. -/
def res0 : Middleware.HandlerResult := ⟨200, [], none, 5, false⟩

/-- A concrete handler result: 404, no errors, span recording. -/
def res404 : Middleware.HandlerResult := ⟨404, [], none, 27, true⟩

/-- A concrete telemetry configuration with all toggles disabled. -/
def cfg0 : Config.TelemetryConfig :=
  ⟨"otel-example-api", "1.0.0", "development", "localhost:4317",
   false, false, false, false⟩

/-- A concrete shutdown-callback registry: callback 1 fails, callback 2
succeeds. -/
def fns1 : List (Nat × Option String) := [(1, some "flush failed"), (2, none)]

/-! ### Theorems for C2 (status-class derivation) -/

/-- C2 counterexample: the claim says status codes ≥ 600 fall back to `"1xx"`,
but `getStatusClass 600` is `"5xx"` (the `statusCode >= 500` arm has no upper
bound). -/
theorem getStatusClass_600_counterexample :
    Middleware.getStatusClass 600 = "5xx" ∧ Middleware.getStatusClass 600 ≠ "1xx" := by
  constructor <;> decide

/-- C2 (amended): for status codes in `[100, 600)`, `getStatusClass` returns the
class obtained by integer-dividing the status code by 100; values < 100 fall
back to `"1xx"`, while values ≥ 600 return `"5xx"` (the 5xx arm is unbounded
above); the five quoted sample values hold. -/
theorem getStatusClass_spec (n : Int) :
    (100 ≤ n → n < 600 → Middleware.getStatusClass n = toString (n / 100) ++ "xx") ∧
    (n < 100 → Middleware.getStatusClass n = "1xx") ∧
    (600 ≤ n → Middleware.getStatusClass n = "5xx") ∧
    (Middleware.getStatusClass 199 = "1xx" ∧ Middleware.getStatusClass 200 = "2xx" ∧
     Middleware.getStatusClass 301 = "3xx" ∧ Middleware.getStatusClass 404 = "4xx" ∧
     Middleware.getStatusClass 500 = "5xx") := by
  refine ⟨?_, ?_, ?_, by decide⟩
  · intro h1 h2
    unfold Middleware.getStatusClass
    rcases (by omega :
        (100 ≤ n ∧ n < 200) ∨ (200 ≤ n ∧ n < 300) ∨ (300 ≤ n ∧ n < 400) ∨
        (400 ≤ n ∧ n < 500) ∨ (500 ≤ n ∧ n < 600)) with h | h | h | h | h
    · have hd : n / 100 = 1 := by omega
      rw [if_neg (by omega), if_neg (by omega), if_neg (by omega), if_neg (by omega), hd]
      decide
    · have hd : n / 100 = 2 := by omega
      rw [if_pos (by omega), hd]
      decide
    · have hd : n / 100 = 3 := by omega
      rw [if_neg (by omega), if_pos (by omega), hd]
      decide
    · have hd : n / 100 = 4 := by omega
      rw [if_neg (by omega), if_neg (by omega), if_pos (by omega), hd]
      decide
    · have hd : n / 100 = 5 := by omega
      rw [if_neg (by omega), if_neg (by omega), if_neg (by omega), if_pos (by omega), hd]
      decide
  · intro h
    unfold Middleware.getStatusClass
    rw [if_neg (by omega), if_neg (by omega), if_neg (by omega), if_neg (by omega)]
  · intro h
    unfold Middleware.getStatusClass
    rw [if_neg (by omega), if_neg (by omega), if_neg (by omega), if_pos (by omega)]

/-- Witness for `getStatusClass_spec` at concrete inputs 404 (division rule),
50 (below 100) and 700 (at or above 600). -/
theorem getStatusClass_spec_witness :
    Middleware.getStatusClass 404 = toString ((404 : Int) / 100) ++ "xx" ∧
    Middleware.getStatusClass 50 = "1xx" ∧
    Middleware.getStatusClass 700 = "5xx" :=
  ⟨(getStatusClass_spec 404).1 (by decide) (by decide),
   (getStatusClass_spec 50).2.1 (by decide),
   (getStatusClass_spec 700).2.2.1 (by decide)⟩

/-! ### Theorems for C10 (telemetry toggles from environment) -/

/-- The `getEnv(key, "true") == "true"` pattern enables a toggle exactly when
the variable is empty/unset or literally `"true"`. -/
theorem getEnv_toggle_iff (env : Config.Env) (k : String) :
    ((Config.getEnv env k "true") == "true") = true ↔ (env k = "" ∨ env k = "true") := by
  unfold Config.getEnv
  by_cases h : env k = ""
  · simp [h]
  · simp [h, beq_iff_eq]

/-- C10: each of the four telemetry toggles is enabled iff its environment
variable is unset/empty or exactly `"true"`; in particular a value of
`"TRUE"` (or `"1"`, `"yes"`, ...) disables it, because the comparison is an
exact string equality after the empty-value default. -/
theorem telemetryToggles_spec (env : Config.Env) :
    ((Config.GetTelemetryConfig env).enableMetrics = true ↔
      env "OTEL_ENABLE_METRICS" = "" ∨ env "OTEL_ENABLE_METRICS" = "true") ∧
    ((Config.GetTelemetryConfig env).enableTracing = true ↔
      env "OTEL_ENABLE_TRACING" = "" ∨ env "OTEL_ENABLE_TRACING" = "true") ∧
    ((Config.GetTelemetryConfig env).enableLogging = true ↔
      env "OTEL_ENABLE_LOGGING" = "" ∨ env "OTEL_ENABLE_LOGGING" = "true") ∧
    ((Config.GetTelemetryConfig env).enableRuntimeMetrics = true ↔
      env "OTEL_ENABLE_RUNTIME_METRICS" = "" ∨ env "OTEL_ENABLE_RUNTIME_METRICS" = "true") ∧
    (env "OTEL_ENABLE_METRICS" = "TRUE" →
      (Config.GetTelemetryConfig env).enableMetrics = false) := by
  refine ⟨getEnv_toggle_iff env _, getEnv_toggle_iff env _, getEnv_toggle_iff env _,
    getEnv_toggle_iff env _, ?_⟩
  intro h
  have hne : ¬(env "OTEL_ENABLE_METRICS" = "" ∨ env "OTEL_ENABLE_METRICS" = "true") := by
    rw [h]
    decide
  cases hb : (Config.GetTelemetryConfig env).enableMetrics
  · rfl
  · exact absurd ((getEnv_toggle_iff env "OTEL_ENABLE_METRICS").mp hb) hne

/-- Witness for `telemetryToggles_spec`: under `envMetricsTRUE` the metrics
toggle is disabled while the tracing toggle (unset) is enabled. -/
theorem telemetryToggles_spec_witness :
    (Config.GetTelemetryConfig envMetricsTRUE).enableMetrics = false ∧
    (Config.GetTelemetryConfig envMetricsTRUE).enableTracing = true :=
  ⟨(telemetryToggles_spec envMetricsTRUE).2.2.2.2 (by decide),
   (telemetryToggles_spec envMetricsTRUE).2.1.mpr (Or.inl (by decide))⟩

/-! ### Theorems for C1 (active-requests bracketing) -/

/-- The middleware body (between increment and deferred decrement) never
touches the active-requests counter. -/
theorem metricsBody_no_activeAdd (tm : Middleware.TelemetryMiddleware)
    (req : Middleware.Request) (handler : Middleware.HandlerOutcome)
    (d : Int) (m r : String) :
    Middleware.MetricEvent.activeAdd d m r ∉ (Middleware.metricsBody tm req handler).1 := by
  obtain ⟨rc, rd, rs, resps, ar⟩ := tm
  cases handler with
  | panics msg =>
    by_cases h1 : req.contentLength > 0 <;>
      cases rs <;>
        simp [Middleware.metricsBody, Middleware.instrumentCall, h1]
  | completes res =>
    by_cases h1 : req.contentLength > 0 <;>
      by_cases h4 : Middleware.responseSizeOf res > 0 <;>
        cases rs <;> cases rc <;> cases rd <;> cases resps <;>
          simp [Middleware.metricsBody, Middleware.instrumentCall, h1, h4]

/-- C1: whenever the active-requests handle is non-nil, every request —
whether the handler completes or panics — emits exactly one active-requests
increment and exactly one decrement, both tagged with the request's
`method`/`route`, the increment first and the decrement last, and no other
active-requests event occurs. -/
theorem activeRequests_balanced (tm : Middleware.TelemetryMiddleware)
    (req : Middleware.Request) (handler : Middleware.HandlerOutcome)
    (h : tm.activeRequests = true) :
    (Middleware.MetricsMiddleware tm req handler).1.count
        (Middleware.MetricEvent.activeAdd 1 req.method req.route) = 1 ∧
    (Middleware.MetricsMiddleware tm req handler).1.count
        (Middleware.MetricEvent.activeAdd (-1) req.method req.route) = 1 ∧
    (Middleware.MetricsMiddleware tm req handler).1.head? =
      some (Middleware.MetricEvent.activeAdd 1 req.method req.route) ∧
    (Middleware.MetricsMiddleware tm req handler).1.getLast? =
      some (Middleware.MetricEvent.activeAdd (-1) req.method req.route) ∧
    (∀ d m r,
      Middleware.MetricEvent.activeAdd d m r ∈ (Middleware.MetricsMiddleware tm req handler).1 →
        (d = 1 ∨ d = -1) ∧ m = req.method ∧ r = req.route) := by
  have hbody := metricsBody_no_activeAdd tm req handler
  have hmw : (Middleware.MetricsMiddleware tm req handler).1 =
      Middleware.MetricEvent.activeAdd 1 req.method req.route ::
        ((Middleware.metricsBody tm req handler).1 ++
          [Middleware.MetricEvent.activeAdd (-1) req.method req.route]) := by
    simp [Middleware.MetricsMiddleware, Middleware.instrumentCall, h]
  rw [hmw]
  refine ⟨?_, ?_, ?_, ?_, ?_⟩
  · rw [List.count_cons_self, List.count_append,
      List.count_eq_zero.mpr (hbody 1 req.method req.route)]
    simp
  · rw [List.count_cons_of_ne (by simp), List.count_append,
      List.count_eq_zero.mpr (hbody (-1) req.method req.route)]
    simp
  · rfl
  · rw [← List.cons_append, List.getLast?_concat]
  · intro d m r hmem
    rcases List.mem_cons.mp hmem with hcase | hcase
    · obtain ⟨hd, hm, hr⟩ := Middleware.MetricEvent.activeAdd.inj hcase
      exact ⟨Or.inl hd, hm.symm ▸ rfl, hr.symm ▸ rfl⟩
    · rcases List.mem_append.mp hcase with hcase2 | hcase2
      · exact absurd hcase2 (hbody d m r)
      · obtain ⟨hd, hm, hr⟩ :=
          Middleware.MetricEvent.activeAdd.inj (List.mem_singleton.mp hcase2)
        exact ⟨Or.inr hd, hm.symm ▸ rfl, hr.symm ▸ rfl⟩

/-- Witness for `activeRequests_balanced`: a `GET /users` request whose
handler panics still emits the increment first and the decrement last. -/
theorem activeRequests_balanced_witness :
    (Middleware.MetricsMiddleware Middleware.NewTelemetryMiddleware req0
        (.panics "boom")).1.count (Middleware.MetricEvent.activeAdd 1 "GET" "/users") = 1 ∧
    (Middleware.MetricsMiddleware Middleware.NewTelemetryMiddleware req0
        (.panics "boom")).1.getLast? =
      some (Middleware.MetricEvent.activeAdd (-1) "GET" "/users") := by
  have h := activeRequests_balanced Middleware.NewTelemetryMiddleware req0 (.panics "boom") rfl
  exact ⟨h.1, h.2.2.2.1⟩

/-! ### Theorems for C3 (span status policy) -/

/-- With all instruments created, the span status the middleware leaves on a
completed request is exactly `spanStatusFor` of the handler result. -/
theorem metricsMiddleware_spanStatus (req : Middleware.Request)
    (res : Middleware.HandlerResult) :
    (Middleware.MetricsMiddleware Middleware.NewTelemetryMiddleware req
        (.completes res)).2.1 = Middleware.spanStatusFor res := by
  by_cases h1 : req.contentLength > 0 <;>
    by_cases h4 : Middleware.responseSizeOf res > 0 <;>
      simp [Middleware.MetricsMiddleware, Middleware.metricsBody,
        Middleware.instrumentCall, Middleware.NewTelemetryMiddleware, h1, h4]

/-- C3: for a completed request whose root span is recording, the final span
status is an error iff the request recorded at least one error or the status
code is ≥ 400; otherwise it is `Ok` with an empty description. -/
theorem spanStatus_error_iff (req : Middleware.Request)
    (res : Middleware.HandlerResult) (h : res.spanRecording = true) :
    ((∃ d, (Middleware.MetricsMiddleware Middleware.NewTelemetryMiddleware req
        (.completes res)).2.1 = some (Middleware.SpanStatus.error d)) ↔
      (res.errors ≠ [] ∨ 400 ≤ res.status)) ∧
    (res.errors = [] → res.status < 400 →
      (Middleware.MetricsMiddleware Middleware.NewTelemetryMiddleware req
        (.completes res)).2.1 = some (Middleware.SpanStatus.ok "")) := by
  rw [metricsMiddleware_spanStatus]
  unfold Middleware.spanStatusFor
  rw [if_pos h]
  by_cases herr : res.errors = []
  · by_cases hst : 400 ≤ res.status
    · rw [if_neg (by simp [herr]), if_pos hst]
      refine ⟨⟨fun _ => Or.inr hst, fun _ => ⟨_, rfl⟩⟩, fun _ h2 => absurd hst (by omega)⟩
    · rw [if_neg (by simp [herr]), if_neg hst]
      refine ⟨⟨?_, ?_⟩, fun _ _ => rfl⟩
      · rintro ⟨d, hd⟩
        simp at hd
      · rintro (hor | hor)
        · exact absurd herr hor
        · exact absurd hor hst
  · have hlen : res.errors.length > 0 := by
      cases hl : res.errors with
      | nil => exact absurd hl herr
      | cons a t => simp
    rw [if_pos hlen]
    exact ⟨⟨fun _ => Or.inl herr, fun _ => ⟨_, rfl⟩⟩, fun h1 _ => absurd h1 herr⟩

/-- Witness for `spanStatus_error_iff`: a recorded 404 response with no Gin
errors yields an error span status. -/
theorem spanStatus_error_iff_witness :
    ∃ d, (Middleware.MetricsMiddleware Middleware.NewTelemetryMiddleware req0
        (.completes res404)).2.1 = some (Middleware.SpanStatus.error d) :=
  (spanStatus_error_iff req0 res404 rfl).1.mpr (Or.inr (by decide))

/-! ### Theorems for C4 (nil-instrument behavior) -/

/-- C4 counterexample: with a nil `requestCounter` handle (creation failed),
the metrics middleware's recording path panics on an ordinary completed
request — the middleware call sites have no nil checks. -/
theorem nilInstrument_counterexample :
    (Middleware.MetricsMiddleware
        { Middleware.NewTelemetryMiddleware with requestCounter := false }
        req0 (.completes res0)).2.2 =
      Middleware.Outcome.panics Middleware.nilPanicMsg ∧
    Middleware.nilPanicMsg ≠ "" := by
  constructor
  · rfl
  · decide

/-- C4 (amended): the database-layer recorder `RecordQueryMetrics` guards
every instrument call with a nil check and therefore never panics, for any
combination of nil handles; but the HTTP metrics middleware's call sites are
unguarded, so a nil instrument handle there panics the recording path on
every completed request. -/
theorem nilInstrument_guards :
    (∀ (db : Database.DBMetricsHandles) (operation table : String) (hasErr : Bool),
      ∃ evs, Database.RecordQueryMetrics db operation table hasErr = .ok evs) ∧
    (∀ (operation table : String) (hasErr : Bool),
      Database.RecordQueryMetrics ⟨false, false, false, false, false, false⟩
        operation table hasErr = .ok []) ∧
    (∀ (req : Middleware.Request) (res : Middleware.HandlerResult),
      (Middleware.MetricsMiddleware
          { Middleware.NewTelemetryMiddleware with requestCounter := false }
          req (.completes res)).2.2 =
        Middleware.Outcome.panics Middleware.nilPanicMsg) := by
  refine ⟨?_, ?_, ?_⟩
  · intro db operation table hasErr
    obtain ⟨qd, qc, qe, cc, ce, hc⟩ := db
    cases qd <;> cases qc <;> cases qe <;> cases hasErr <;> exact ⟨_, rfl⟩
  · intro operation table hasErr
    cases hasErr <;> rfl
  · intro req res
    by_cases h1 : req.contentLength > 0 <;>
      simp [Middleware.MetricsMiddleware, Middleware.metricsBody,
        Middleware.NewTelemetryMiddleware, Middleware.instrumentCall, h1]

/-! ### Theorems for C5 (query-metrics recording and call-site shapes) -/

/-- C5: the `RecordQueryMetrics` body records exactly one query-count
increment and one duration observation tagged with the operation and table,
and one `query_failed` error increment iff the error is non-nil — but the
`UserRepository` call sites do not all use the declared 5-argument form:
`Update`, `Delete`, `Count` and `GetByEmail` pass 3 or 4 arguments against
the 5-parameter declaration. -/
theorem recordQueryMetrics_callsites :
    (∀ (operation table : String) (hasErr : Bool),
      Database.RecordQueryMetrics ⟨true, true, true, true, true, true⟩
          operation table hasErr =
        .ok (if hasErr then
          [Database.DBMetricEvent.queryDurationRecord operation table,
           Database.DBMetricEvent.queryCountAdd operation table,
           Database.DBMetricEvent.queryErrorsAdd operation table "query_failed"]
        else
          [Database.DBMetricEvent.queryDurationRecord operation table,
           Database.DBMetricEvent.queryCountAdd operation table])) ∧
    ((Database.userRepositoryCallSiteArgCounts.filter
        (fun p => p.2 != Database.recordQueryMetricsParamCount)).map Prod.fst =
      ["Update", "Delete", "Count", "GetByEmail"]) ∧
    ¬ (∀ p ∈ Database.userRepositoryCallSiteArgCounts,
        p.2 = Database.recordQueryMetricsParamCount) := by
  refine ⟨?_, by decide, by decide⟩
  intro operation table hasErr
  cases hasErr <;> rfl

/-! ### Theorems for C6 (aggregate shutdown and all-disabled init) -/

/-- The shutdown loop visits every callback in registration order and
collects exactly the errors the callbacks return. -/
theorem runShutdownFuncs_spec (fns : List (Nat × Option String)) :
    Config.runShutdownFuncs fns = (fns.map Prod.fst, fns.filterMap Prod.snd) := by
  suffices hgen : ∀ (l : List (Nat × Option String)) (a : List Nat) (b : List String),
      l.foldl
        (fun acc fn =>
          (acc.1 ++ [fn.1],
           match fn.2 with
           | some e => acc.2 ++ [e]
           | none => acc.2))
        (a, b) = (a ++ l.map Prod.fst, b ++ l.filterMap Prod.snd) by
    simpa [Config.runShutdownFuncs] using hgen fns [] []
  intro l
  induction l with
  | nil =>
    intro a b
    simp
  | cons hd tl ih =>
    intro a b
    obtain ⟨idtag, result⟩ := hd
    cases result with
    | none =>
      simp [List.foldl_cons, ih, List.filterMap_cons]
    | some e =>
      simp [List.foldl_cons, ih, List.filterMap_cons, List.append_assoc]

/-- C6: the aggregate shutdown invokes every registered callback (in order,
regardless of earlier failures) and returns no error exactly when no
callback errored; and with all three toggles disabled, `InitTelemetry`
succeeds with all three provider references nil and an empty callback list,
whose shutdown returns no error. -/
theorem shutdown_spec :
    (∀ fns : List (Nat × Option String),
      (Config.Shutdown fns).1 = fns.map Prod.fst ∧
      ((Config.Shutdown fns).2 = none ↔ ∀ fn ∈ fns, fn.2 = none)) ∧
    (∀ (cfg : Config.TelemetryConfig) (t m l : Config.InitResult),
      cfg.enableTracing = false → cfg.enableMetrics = false → cfg.enableLogging = false →
        Config.InitTelemetry cfg t m l = .ok ⟨none, none, none, []⟩ ∧
        (Config.Shutdown []).2 = none) := by
  constructor
  · intro fns
    constructor
    · simp [Config.Shutdown, runShutdownFuncs_spec]
    · simp only [Config.Shutdown, runShutdownFuncs_spec]
      constructor
      · intro hnone fn hmem
        rcases hv : fn.2 with _ | e
        · rfl
        · have hmemf : e ∈ fns.filterMap Prod.snd :=
            List.mem_filterMap.mpr ⟨fn, hmem, hv⟩
          have hpos : (fns.filterMap Prod.snd).length > 0 :=
            List.length_pos.mpr (List.ne_nil_of_mem hmemf)
          rw [if_pos hpos] at hnone
          exact absurd hnone (Option.some_ne_none _)
      · intro hall
        have hnil : fns.filterMap Prod.snd = [] := by
          rw [List.filterMap_eq_nil_iff]
          intro fn hmem
          exact hall fn hmem
        rw [hnil]
        simp
  · intro cfg t m l h1 h2 h3
    obtain ⟨sn, sv, envName, ep, em, et, el, erm⟩ := cfg
    simp only at h1 h2 h3
    subst h1
    subst h2
    subst h3
    exact ⟨rfl, rfl⟩

/-- Witness for `shutdown_spec`: the all-disabled configuration `cfg0`
yields the empty provider, and a registry with one failing and one clean
callback still invokes both and reports a non-nil aggregate error. -/
theorem shutdown_spec_witness :
    Config.InitTelemetry cfg0 (.error "boom") (.error "boom") (.error "boom") =
      .ok ⟨none, none, none, []⟩ ∧
    (Config.Shutdown []).2 = none ∧
    (Config.Shutdown fns1).1 = [1, 2] ∧
    ¬ (Config.Shutdown fns1).2 = none := by
  refine ⟨(shutdown_spec.2 cfg0 (.error "boom") (.error "boom") (.error "boom") rfl rfl rfl).1,
    (shutdown_spec.2 cfg0 (.error "boom") (.error "boom") (.error "boom") rfl rfl rfl).2,
    (shutdown_spec.1 fns1).1, ?_⟩
  intro hnone
  have hall := (shutdown_spec.1 fns1).2.mp hnone
  have := hall (1, some "flush failed") (by decide)
  simp at this

/-! ### Theorems for C7 (GET /metrics response) -/

/-- C7: the metrics endpoint reports 200 iff the health check succeeded and
503 otherwise, echoes the health error (empty on success), passes the stats
through, and on a closed connection reports unhealthy with a non-empty
error. -/
theorem getMetrics_spec (healthErr : Option String) (dbStats : String) :
    ((Handlers.GetMetrics healthErr dbStats).statusCode = 200 ↔ healthErr = none) ∧
    ((Handlers.GetMetrics healthErr dbStats).statusCode = 503 ↔ healthErr ≠ none) ∧
    (Handlers.GetMetrics healthErr dbStats).dbHealthy = healthErr.isNone ∧
    (Handlers.GetMetrics healthErr dbStats).dbError = healthErr.getD "" ∧
    (Handlers.GetMetrics healthErr dbStats).dbStats = dbStats ∧
    (Handlers.GetMetrics healthErr dbStats).appStatus = "running" ∧
    (Handlers.GetMetrics healthErr dbStats).message = "Application and database metrics" ∧
    (Handlers.GetMetrics (some Handlers.databaseClosedErr) dbStats).dbHealthy = false ∧
    (Handlers.GetMetrics (some Handlers.databaseClosedErr) dbStats).dbError ≠ "" := by
  cases healthErr <;>
    simp [Handlers.GetMetrics, Handlers.databaseClosedErr]

/-! ### Theorems for C8 (trace-correlated log fields) -/

/-- C8: a record produced through a trace-aware entry point carries
`trace_id`/`span_id` fields equal to the active span's identifiers when the
span context is valid, and carries neither field when it is not (given the
caller's own fields do not use the reserved keys). -/
theorem traceContext_fields_spec (ctx : Logging.SpanContext) (fields : Logging.LogFields)
    (h1 : fields.lookup "trace_id" = none) (h2 : fields.lookup "span_id" = none) :
    (ctx.isValid = true →
      (Logging.logRecordFields ctx fields).lookup "trace_id" = some (toString ctx.traceID) ∧
      (Logging.logRecordFields ctx fields).lookup "span_id" = some (toString ctx.spanID)) ∧
    (ctx.isValid = false →
      (Logging.logRecordFields ctx fields).lookup "trace_id" = none ∧
      (Logging.logRecordFields ctx fields).lookup "span_id" = none) := by
  constructor
  · intro hv
    simp [Logging.logRecordFields, Logging.WithTraceContext, hv, List.lookup]
  · intro hv
    simp [Logging.logRecordFields, Logging.WithTraceContext, hv, h1, h2]

/-- Witness for `traceContext_fields_spec`: a valid span context injects its
trace identifier; the zero trace identifier (invalid) injects nothing. -/
theorem traceContext_fields_spec_witness :
    (Logging.logRecordFields ⟨1, 2⟩ []).lookup "trace_id" = some (toString (1 : Nat)) ∧
    (Logging.logRecordFields ⟨0, 2⟩ []).lookup "trace_id" = none :=
  ⟨((traceContext_fields_spec ⟨1, 2⟩ [] rfl rfl).1 (by decide)).1,
   ((traceContext_fields_spec ⟨0, 2⟩ [] rfl rfl).2 (by decide)).1⟩

/-! ### Theorems for C9 (completion-log severity buckets) -/

/-- C9: the completion log line's severity is a function of the status code
alone — error for ≥ 500, warn for 400–499, info otherwise — and the
configured minimum level only decides whether the line is emitted, never
changes its bucket. -/
theorem requestLog_severity_spec (configured : Logging.LogLevel) (statusCode : Int) :
    ((Logging.middlewareLogEntry statusCode).1 = .error ↔ 500 ≤ statusCode) ∧
    ((Logging.middlewareLogEntry statusCode).1 = .warn ↔
      (400 ≤ statusCode ∧ statusCode < 500)) ∧
    ((Logging.middlewareLogEntry statusCode).1 = .info ↔ statusCode < 400) ∧
    (∀ rec ∈ Logging.middlewareEmittedRecord configured statusCode,
      rec = Logging.middlewareLogEntry statusCode) := by
  refine ⟨?_, ?_, ?_, ?_⟩
  · by_cases h5 : statusCode ≥ 500 <;> by_cases h4 : statusCode ≥ 400 <;>
      simp [Logging.middlewareLogEntry, h5, h4]
  · by_cases h5 : statusCode ≥ 500 <;> by_cases h4 : statusCode ≥ 400 <;>
      simp [Logging.middlewareLogEntry, h5, h4]
    omega
  · by_cases h5 : statusCode ≥ 500 <;> by_cases h4 : statusCode ≥ 400 <;>
      simp [Logging.middlewareLogEntry, h5, h4] <;> omega
  · intro rec hmem
    simp only [Logging.middlewareEmittedRecord] at hmem
    split at hmem
    · simpa using hmem.symm
    · simp at hmem

/-- Witness for `requestLog_severity_spec`: a 503 response logs at error
level, and the record emitted under an `info`-configured logger is exactly
the status-determined one. -/
theorem requestLog_severity_spec_witness :
    (Logging.middlewareLogEntry 503).1 = Logging.LogLevel.error ∧
    (Logging.LogLevel.error, "HTTP request completed with server error") =
      Logging.middlewareLogEntry 503 :=
  ⟨(requestLog_severity_spec .info 503).1.mpr (by decide),
   (requestLog_severity_spec .info 503).2.2.2 _ (by decide)⟩

end OtelExample
